import Mathlib

set_option autoImplicit false

/-!
Shallow embedding of the alert evaluation and delivery engine of
infra-cost-monitor (alert_system/alert_manager.py), together with proofs
about its suppression, evaluation, dispatch and history behaviour.

Conventions of the embedding:
* Python floats become exact rationals.
* Timestamps are seconds since the epoch as naturals; datetime subtraction
  is integer subtraction.
* Python dicts keyed by strings become association lists with first-match
  lookup and replace-or-append assignment.
* Methods that mutate the AlertManager return the new state explicitly.
* Network effects (the webhook post, the SMTP session) are oracles passed
  in as a Network value; an exception raised by a call is an error result.
-/

/-- Alert threshold configuration (dataclass AlertThreshold). -/
structure AlertThreshold where
  service : String
  threshold_amount : ℚ
  threshold_percentage : ℚ
  time_window_hours : Nat
  alert_type : String
  deriving DecidableEq

/-- Alert configuration (dataclass AlertConfig). -/
structure AlertConfig where
  slack_webhook_url : String
  email_smtp_server : String
  email_smtp_port : Nat
  email_username : String
  email_password : String
  email_recipients : List String
  escalation_recipients : List String
  alert_cooldown_minutes : Nat := 30
  max_alerts_per_hour : Nat := 10
  deriving DecidableEq

/-- An alert candidate. The Python code builds these as dicts with
type-specific numeric fields; a field a given alert type does not set is
modelled as none. The timestamp the code stores as an isoformat string is
modelled as seconds since the epoch. -/
structure Alert where
  type : String
  service : String
  current_cost : Option ℚ := none
  previous_cost : Option ℚ := none
  increase_amount : Option ℚ := none
  increase_percentage : Option ℚ := none
  threshold_amount : Option ℚ := none
  threshold_percentage : Option ℚ := none
  budget_limit : Option ℚ := none
  exceeded_amount : Option ℚ := none
  anomaly_score : Option ℚ := none
  cost_impact : Option ℚ := none
  timestamp : Nat
  severity : String
  deriving DecidableEq

/-- Input record for check_cost_spike and check_budget_exceeded; a missing
dict key is none. -/
structure CostData where
  current_cost : Option ℚ := none
  previous_cost : Option ℚ := none
  budget_limit : Option ℚ := none
  service : Option String := none
  deriving DecidableEq

/-- Input record for check_anomaly; a missing dict key is none. -/
structure AnomalyData where
  anomaly_score : Option ℚ := none
  cost_impact : Option ℚ := none
  service : Option String := none
  deriving DecidableEq

/-- Python dict lookup, first binding wins. -/
def lookupKey {α : Type} : List (String × α) → String → Option α
  | [], _ => none
  | (k0, v) :: rest, k => if k0 = k then some v else lookupKey rest k

/-- Python dict assignment: replace the binding if present, else append. -/
def setKey {α : Type} : List (String × α) → String → α → List (String × α)
  | [], k, v => [(k, v)]
  | (k0, v0) :: rest, k, v =>
    if k0 = k then (k, v) :: rest else (k0, v0) :: setKey rest k v

/-- Mutable state of class AlertManager: configuration, loaded thresholds,
alert history, last-sent map and hourly counters. -/
structure AlertManager where
  config : AlertConfig
  thresholds : List AlertThreshold
  alert_history : List Alert
  last_alert_time : List (String × Nat)
  alert_count_hourly : List (String × Nat)
  deriving DecidableEq

/-- Wall-clock hour bucket of a timestamp. -/
def hourBucket (t : Nat) : Nat := t / 3600

/-- Models the strftime year-month-day-hour rendering used by the
suppression check: a string determined by the hour bucket, in one fixed
format. -/
def strftimeHourKey (t : Nat) : String := "Y-m-d-H:" ++ toString (hourBucket t)

/-- Models the isoformat rendering of the truncated hour used when a
delivery is recorded: a string determined by the same hour bucket, in a
different fixed format. The two formats never produce equal strings. -/
def isoHourKey (t : Nat) : String := "Y-m-dTH:00:00:" ++ toString (hourBucket t)

/-- AlertManager._should_send_alert: cooldown on the key type_service, then
hourly rate limiting. The Python method inserts a zero counter for the
current hour bucket when absent, so the (possibly updated) state is
returned as well. -/
def should_send_alert (st : AlertManager) (alert : Alert) (now : Nat) :
    Bool × AlertManager :=
  let alert_key := alert.type ++ "_" ++ alert.service
  let cooldownBlocked : Bool :=
    match lookupKey st.last_alert_time alert_key with
    | some t =>
      decide ((now : Int) - (t : Int) < (st.config.alert_cooldown_minutes : Int) * 60)
    | none => false
  if cooldownBlocked then (false, st)
  else
    let hour_key := strftimeHourKey now
    let counts :=
      match lookupKey st.alert_count_hourly hour_key with
      | some _ => st.alert_count_hourly
      | none => setKey st.alert_count_hourly hour_key 0
    let st1 := { st with alert_count_hourly := counts }
    if st.config.max_alerts_per_hour ≤ (lookupKey counts hour_key).getD 0 then
      (false, st1)
    else (true, st1)

/-- The threshold loop of check_cost_spike, in threshold-list order. A
qualifying threshold builds a candidate; the candidate is returned only if
the suppression gate accepts it, otherwise the loop continues. -/
def costSpikeLoop (service : String) (current previous inc pct : ℚ) (now : Nat) :
    AlertManager → List AlertThreshold → Option Alert × AlertManager
  | st, [] => (none, st)
  | st, t :: rest =>
    if (t.service = service ∨ t.service = "all") ∧ t.alert_type = "cost_spike" then
      if t.threshold_amount ≤ inc ∨ t.threshold_percentage ≤ pct then
        let alert : Alert :=
          { type := "cost_spike", service := service,
            current_cost := some current, previous_cost := some previous,
            increase_amount := some inc, increase_percentage := some pct,
            threshold_amount := some t.threshold_amount,
            threshold_percentage := some t.threshold_percentage,
            timestamp := now,
            severity := if 100 < pct then "high" else "medium" }
        let r := should_send_alert st alert now
        if r.1 then (some alert, r.2)
        else costSpikeLoop service current previous inc pct now r.2 rest
      else costSpikeLoop service current previous inc pct now st rest
    else costSpikeLoop service current previous inc pct now st rest

/-- AlertManager.check_cost_spike. Missing current_cost and previous_cost
default to 0; a zero previous cost yields no candidate. -/
def check_cost_spike (st : AlertManager) (cost_data : CostData) (now : Nat) :
    Option Alert × AlertManager :=
  let current_cost := cost_data.current_cost.getD 0
  let previous_cost := cost_data.previous_cost.getD 0
  let service := cost_data.service.getD "unknown"
  if previous_cost = 0 then (none, st)
  else
    let cost_increase := current_cost - previous_cost
    let pct := cost_increase / previous_cost * 100
    costSpikeLoop service current_cost previous_cost cost_increase pct now st
      st.thresholds

/-- The threshold loop of check_budget_exceeded. -/
def budgetLoop (service : String) (current budget : ℚ) (now : Nat) :
    AlertManager → List AlertThreshold → Option Alert × AlertManager
  | st, [] => (none, st)
  | st, t :: rest =>
    if (t.service = service ∨ t.service = "all") ∧
        t.alert_type = "budget_exceeded" then
      let alert : Alert :=
        { type := "budget_exceeded", service := service,
          current_cost := some current, budget_limit := some budget,
          exceeded_amount := some (current - budget),
          timestamp := now, severity := "critical" }
      let r := should_send_alert st alert now
      if r.1 then (some alert, r.2)
      else budgetLoop service current budget now r.2 rest
    else budgetLoop service current budget now st rest

/-- AlertManager.check_budget_exceeded. The Python default for a missing
budget_limit is float infinity, and a finite current cost is never greater
than infinity, so a record without budget_limit yields no candidate; that
case is the none branch here. -/
def check_budget_exceeded (st : AlertManager) (cost_data : CostData) (now : Nat) :
    Option Alert × AlertManager :=
  let current_cost := cost_data.current_cost.getD 0
  let service := cost_data.service.getD "unknown"
  match cost_data.budget_limit with
  | none => (none, st)
  | some budget_limit =>
    if budget_limit < current_cost then
      budgetLoop service current_cost budget_limit now st st.thresholds
    else (none, st)

/-- The threshold loop of check_anomaly. -/
def anomalyLoop (service : String) (score impact : ℚ) (now : Nat) :
    AlertManager → List AlertThreshold → Option Alert × AlertManager
  | st, [] => (none, st)
  | st, t :: rest =>
    if (t.service = service ∨ t.service = "all") ∧ t.alert_type = "anomaly" then
      if t.threshold_amount ≤ impact then
        let alert : Alert :=
          { type := "anomaly", service := service,
            anomaly_score := some score, cost_impact := some impact,
            timestamp := now,
            severity := if (0.8 : ℚ) < score then "high" else "medium" }
        let r := should_send_alert st alert now
        if r.1 then (some alert, r.2)
        else anomalyLoop service score impact now r.2 rest
      else anomalyLoop service score impact now st rest
    else anomalyLoop service score impact now st rest

/-- AlertManager.check_anomaly. Missing anomaly_score and cost_impact
default to 0. -/
def check_anomaly (st : AlertManager) (anomaly_data : AnomalyData) (now : Nat) :
    Option Alert × AlertManager :=
  anomalyLoop (anomaly_data.service.getD "unknown")
    (anomaly_data.anomaly_score.getD 0) (anomaly_data.cost_impact.getD 0)
    now st st.thresholds

/-- Environment outcome of the network calls a dispatch may make: the HTTP
status of the webhook post (none means the post call raised), and whether
the SMTP session succeeded (false means smtplib raised). -/
structure Network where
  slack_response : Option Nat
  email_ok : Bool
  deriving DecidableEq

/-- Whether the per-type message formatters can read every dict key they
reference. _format_cost_spike/_format_budget_exceeded/_format_anomaly (both
their Slack and email variants) index the same type-specific numeric keys,
raising KeyError when one is absent; the generic fallback reads only type,
service and timestamp, which every candidate in this model carries (as does
severity). -/
def formatFieldsPresent (a : Alert) : Bool :=
  if a.type = "cost_spike" then
    a.current_cost.isSome && a.previous_cost.isSome &&
      a.increase_amount.isSome && a.increase_percentage.isSome &&
      a.threshold_amount.isSome && a.threshold_percentage.isSome
  else if a.type = "budget_exceeded" then
    a.current_cost.isSome && a.budget_limit.isSome && a.exceeded_amount.isSome
  else if a.type = "anomaly" then
    a.anomaly_score.isSome && a.cost_impact.isSome
  else true

/-- AlertManager._send_slack_alert. The message is formatted before the
try/except, so a candidate missing a formatter-referenced key raises
KeyError out of this method; the network post itself is wrapped in
try/except and a non-200 status is only logged, so once formatting
succeeds the method returns normally whatever the network outcome. -/
def send_slack_alert (config : AlertConfig) (alert : Alert) (net : Network) :
    Except String Unit :=
  if config.slack_webhook_url = "" then Except.ok ()
  else if formatFieldsPresent alert then
    match net.slack_response with
    | none => Except.ok ()
    | some _ => Except.ok ()
  else Except.error "KeyError"

/-- Success of the Slack delivery attempt as the code itself logs it: the
webhook responded with status 200 (trivially true when unconfigured). -/
def slackAttemptSucceeded (config : AlertConfig) (net : Network) : Bool :=
  if config.slack_webhook_url = "" then true
  else decide (net.slack_response = some 200)

/-- AlertManager._send_email_alert: returns early unless server, username,
password and recipients are all present; then the subject and body are
formatted (raising KeyError for a candidate missing a referenced key)
before the SMTP session, and a failing SMTP session raises. -/
def send_email_alert (config : AlertConfig) (alert : Alert) (net : Network) :
    Except String Unit :=
  if config.email_smtp_server = "" ∨ config.email_username = "" ∨
      config.email_password = "" ∨ config.email_recipients = [] then Except.ok ()
  else if formatFieldsPresent alert then
    if net.email_ok then Except.ok () else Except.error "smtp"
  else Except.error "KeyError"

/-- AlertManager.send_alert: gate on _should_send_alert, attempt each
configured channel, and on overall success append to history and update
tracking. The last-sent map is updated under the bare service name and the
hourly counter under the isoformat hour key, exactly as the Python does. -/
def send_alert (st : AlertManager) (alert : Alert) (now : Nat) (net : Network) :
    Bool × AlertManager :=
  let gate := should_send_alert st alert now
  if !gate.1 then (false, gate.2)
  else
    let st1 := gate.2
    let slackFailed : Bool :=
      if st1.config.slack_webhook_url = "" then false
      else
        match send_slack_alert st1.config alert net with
        | Except.ok _ => false
        | Except.error _ => true
    let emailFailed : Bool :=
      if st1.config.email_smtp_server = "" then false
      else
        match send_email_alert st1.config alert net with
        | Except.ok _ => false
        | Except.error _ => true
    let success := !slackFailed && !emailFailed
    if success then
      let hour_key := isoHourKey now
      (true,
        { st1 with
          alert_history := st1.alert_history ++ [alert],
          last_alert_time := setKey st1.last_alert_time alert.service now,
          alert_count_hourly :=
            setKey st1.alert_count_hourly hour_key
              ((lookupKey st1.alert_count_hourly hour_key).getD 0 + 1) })
    else (false, st1)

/-- AlertManager.get_alert_history: the alerts whose timestamp is strictly
newer than now minus the requested number of hours. -/
def get_alert_history (st : AlertManager) (hours : Nat) (now : Nat) : List Alert :=
  let cutoff : Int := (now : Int) - (hours : Int) * 3600
  st.alert_history.filter (fun a => cutoff < (a.timestamp : Int))

/-- The built-in default thresholds of _load_thresholds. -/
def defaultThresholds : List AlertThreshold :=
  [ { service := "all", threshold_amount := 100, threshold_percentage := 50,
      time_window_hours := 24, alert_type := "cost_spike" },
    { service := "all", threshold_amount := 500, threshold_percentage := 100,
      time_window_hours := 24, alert_type := "budget_exceeded" },
    { service := "all", threshold_amount := 50, threshold_percentage := 25,
      time_window_hours := 1, alert_type := "anomaly" } ]

/-! ## Concrete fixtures used by witnesses and counterexamples -/

/-- A configuration with no channels configured. -/
def cfgNoChannels : AlertConfig :=
  { slack_webhook_url := ""
    email_smtp_server := ""
    email_smtp_port := 0
    email_username := ""
    email_password := ""
    email_recipients := []
    escalation_recipients := [] }

/-- A configuration whose only configured channel is the Slack webhook. -/
def cfgSlackOnly : AlertConfig :=
  { cfgNoChannels with slack_webhook_url := "https://hooks.example/T/B/X" }

/-- A configuration allowing at most one delivered alert per hour. -/
def cfgMaxOne : AlertConfig := { cfgNoChannels with max_alerts_per_hour := 1 }

/-- A configuration allowing no delivered alerts at all. -/
def cfgMaxZero : AlertConfig := { cfgNoChannels with max_alerts_per_hour := 0 }

/-- A freshly constructed manager: default thresholds, empty history and
empty suppression state. -/
def freshManager : AlertManager :=
  { config := cfgNoChannels
    thresholds := defaultThresholds
    alert_history := []
    last_alert_time := []
    alert_count_hourly := [] }

/-- Fresh manager with only the Slack channel configured. -/
def managerSlack : AlertManager := { freshManager with config := cfgSlackOnly }

/-- Fresh manager with the one-per-hour rate limit. -/
def managerMaxOne : AlertManager := { freshManager with config := cfgMaxOne }

/-- Fresh manager with the zero-per-hour rate limit. -/
def managerMaxZero : AlertManager := { freshManager with config := cfgMaxZero }

/-- Fresh manager that already has a counter entry for an unrelated key. -/
def managerWithCount : AlertManager :=
  { freshManager with alert_count_hourly := [("k1", 5)] }

/-- Network oracle where both channels behave. -/
def netOk : Network := { slack_response := some 200, email_ok := true }

/-- Network oracle where the webhook post gets an HTTP 500 response. -/
def netSlack500 : Network := { slack_response := some 500, email_ok := true }

/-- A concrete anomaly alert candidate. -/
def anomalyAlert : Alert :=
  { type := "anomaly", service := "gcs", timestamp := 1000, severity := "high" }

/-- A second anomaly candidate for a different service (different key). -/
def anomalyAlertB : Alert :=
  { type := "anomaly", service := "bigquery", timestamp := 2000, severity := "high" }

/-- A well-formed anomaly candidate: both formatter-referenced numeric
keys are present, so the channel formatters cannot raise on it. -/
def anomalyAlertFull : Alert :=
  { type := "anomaly", service := "gcs", anomaly_score := some 1,
    cost_impact := some 75, timestamp := 1000, severity := "high" }

/-- Budget input with no budget_limit key. -/
def costNoBudget : CostData := { current_cost := some 5, service := some "gcs" }

/-- The same input with budget_limit present and equal to 0. -/
def costZeroBudget : CostData := { costNoBudget with budget_limit := some 0 }

/-- Budget input for the dispatch-shape witness. -/
def costOverBudget : CostData :=
  { current_cost := some 600, budget_limit := some 500, service := some "gcs" }

/-- Cost-spike input: 100 to 250. -/
def costSpikeData : CostData :=
  { current_cost := some 250, previous_cost := some 100, service := some "gcs" }

/-! ## Association-list lemmas -/

theorem lookupKey_setKey_self {α : Type} (m : List (String × α)) (k : String) (v : α) :
    lookupKey (setKey m k v) k = some v := by
  induction m with
  | nil => simp [setKey, lookupKey]
  | cons p rest ih =>
    by_cases h : p.1 = k <;> simp [setKey, lookupKey, h, ih]

theorem lookupKey_setKey_ne {α : Type} (m : List (String × α)) (k k2 : String)
    (v : α) (h : k ≠ k2) : lookupKey (setKey m k v) k2 = lookupKey m k2 := by
  induction m with
  | nil => simp [setKey, lookupKey, h]
  | cons p rest ih =>
    by_cases hp : p.1 = k <;> by_cases hq : p.1 = k2 <;>
      simp_all [setKey, lookupKey]

/-! ## Frame lemmas for the suppression gate -/

theorem should_send_alert_frame (st : AlertManager) (a : Alert) (now : Nat) :
    (should_send_alert st a now).2.config = st.config ∧
    (should_send_alert st a now).2.thresholds = st.thresholds ∧
    (should_send_alert st a now).2.alert_history = st.alert_history ∧
    (should_send_alert st a now).2.last_alert_time = st.last_alert_time := by
  simp only [should_send_alert]
  split
  · exact ⟨rfl, rfl, rfl, rfl⟩
  · split <;> exact ⟨rfl, rfl, rfl, rfl⟩

theorem should_send_alert_counts_mono (st : AlertManager) (a : Alert) (now : Nat)
    (k : String) (v : Nat) (h : lookupKey st.alert_count_hourly k = some v) :
    lookupKey (should_send_alert st a now).2.alert_count_hourly k = some v := by
  simp only [should_send_alert]
  split
  · exact h
  · split <;> (
      simp only []
      split
      · exact h
      · rename_i hnone
        by_cases hk : strftimeHourKey now = k
        · rw [hk] at hnone; rw [hnone] at h; exact absurd h (by simp)
        · rw [lookupKey_setKey_ne _ _ _ _ hk]; exact h)

theorem should_send_alert_counts_cases (st : AlertManager) (a : Alert) (now : Nat) :
    (should_send_alert st a now).2.alert_count_hourly = st.alert_count_hourly ∨
    (should_send_alert st a now).2.alert_count_hourly =
      setKey st.alert_count_hourly (strftimeHourKey now) 0 := by
  simp only [should_send_alert]
  split
  · exact Or.inl rfl
  · split <;> (
      simp only []
      split
      · exact Or.inl rfl
      · exact Or.inr rfl)

/-- On a fresh suppression state with a positive hourly budget, the gate
accepts and the only state change is the zero counter for the current hour. -/
theorem should_send_alert_fresh (st : AlertManager) (a : Alert) (now : Nat)
    (h1 : st.last_alert_time = []) (h2 : st.alert_count_hourly = [])
    (h3 : 1 ≤ st.config.max_alerts_per_hour) :
    should_send_alert st a now =
      (true, { st with alert_count_hourly := [(strftimeHourKey now, 0)] }) := by
  have hc : ¬ (st.config.max_alerts_per_hour ≤ (0 : Nat)) := by omega
  simp [should_send_alert, h1, h2, lookupKey, setKey, hc]

/-! ## Evaluator loop lemmas -/

/-- Bool-valued applicability of a threshold to the cost-spike check. -/
def costSpikeApplicable (service : String) (t : AlertThreshold) : Bool :=
  decide ((t.service = service ∨ t.service = "all") ∧ t.alert_type = "cost_spike")

theorem costSpikeLoop_of_filter_nil (service : String) (c p i pc : ℚ) (now : Nat) :
    ∀ (l : List AlertThreshold) (st : AlertManager),
      l.filter (costSpikeApplicable service) = [] →
      costSpikeLoop service c p i pc now st l = (none, st) := by
  intro l
  induction l with
  | nil => intro st _; simp [costSpikeLoop]
  | cons t rest ih =>
    intro st h
    rw [List.filter_cons] at h
    by_cases hm : costSpikeApplicable service t = true
    · simp [hm] at h
    · have hm2 : ¬ ((t.service = service ∨ t.service = "all") ∧
          t.alert_type = "cost_spike") := by
        simpa [costSpikeApplicable] using hm
      simp only [costSpikeLoop]
      rw [if_neg hm2]
      exact ih st (by simpa [hm] using h)

theorem costSpikeLoop_isSome_iff (service : String) (c p i pc : ℚ) (now : Nat)
    (T : AlertThreshold) :
    ∀ (l : List AlertThreshold) (st : AlertManager),
      st.last_alert_time = [] → st.alert_count_hourly = [] →
      1 ≤ st.config.max_alerts_per_hour →
      l.filter (costSpikeApplicable service) = [T] →
      ((costSpikeLoop service c p i pc now st l).1.isSome = true ↔
        (T.threshold_amount ≤ i ∨ T.threshold_percentage ≤ pc)) := by
  intro l
  induction l with
  | nil => intro st _ _ _ hf; simp at hf
  | cons t rest ih =>
    intro st h1 h2 h3 hf
    rw [List.filter_cons] at hf
    by_cases hm : costSpikeApplicable service t = true
    · have hmp : (t.service = service ∨ t.service = "all") ∧
          t.alert_type = "cost_spike" := by
        simpa [costSpikeApplicable] using hm
      rw [if_pos hm] at hf
      injection hf with hT hrest
      subst hT
      simp only [costSpikeLoop]
      rw [if_pos hmp]
      by_cases hcond : t.threshold_amount ≤ i ∨ t.threshold_percentage ≤ pc
      · rw [if_pos hcond]
        rw [should_send_alert_fresh st _ now h1 h2 h3]
        simpa using hcond
      · rw [if_neg hcond]
        rw [costSpikeLoop_of_filter_nil service c p i pc now rest st hrest]
        simpa using hcond
    · have hm2 : ¬ ((t.service = service ∨ t.service = "all") ∧
          t.alert_type = "cost_spike") := by
        simpa [costSpikeApplicable] using hm
      rw [if_neg hm] at hf
      simp only [costSpikeLoop]
      rw [if_neg hm2]
      exact ih st h1 h2 h3 hf

theorem costSpikeLoop_shape (service : String) (c p i pc : ℚ) (now : Nat) :
    ∀ (l : List AlertThreshold) (st st2 : AlertManager) (a : Alert),
      costSpikeLoop service c p i pc now st l = (some a, st2) →
      a.type = "cost_spike" ∧ a.service = service ∧
      a.increase_percentage = some pc ∧
      a.severity = (if 100 < pc then "high" else "medium") := by
  intro l
  induction l with
  | nil => intro st st2 a h; simp [costSpikeLoop] at h
  | cons t rest ih =>
    intro st st2 a h
    simp only [costSpikeLoop] at h
    set sev : String := if (100 : ℚ) < pc then "high" else "medium" with hsev
    split at h
    · split at h
      · split at h
        · injection h with ha hst
          injection ha with ha
          subst ha
          exact ⟨rfl, rfl, rfl, rfl⟩
        · exact ih _ st2 a h
      · exact ih _ st2 a h
    · exact ih _ st2 a h

theorem budgetLoop_shape (service : String) (c b : ℚ) (now : Nat) :
    ∀ (l : List AlertThreshold) (st st2 : AlertManager) (a : Alert),
      budgetLoop service c b now st l = (some a, st2) →
      a.type = "budget_exceeded" ∧ a.service = service ∧
      a.severity = "critical" := by
  intro l
  induction l with
  | nil => intro st st2 a h; simp [budgetLoop] at h
  | cons t rest ih =>
    intro st st2 a h
    simp only [budgetLoop] at h
    split at h
    · split at h
      · injection h with ha hst
        injection ha with ha
        subst ha
        exact ⟨rfl, rfl, rfl⟩
      · exact ih _ st2 a h
    · exact ih _ st2 a h

theorem anomalyLoop_shape (service : String) (score impact : ℚ) (now : Nat) :
    ∀ (l : List AlertThreshold) (st st2 : AlertManager) (a : Alert),
      anomalyLoop service score impact now st l = (some a, st2) →
      a.type = "anomaly" ∧ a.service = service ∧
      a.anomaly_score = some score ∧
      a.severity = (if (0.8 : ℚ) < score then "high" else "medium") := by
  intro l
  induction l with
  | nil => intro st st2 a h; simp [anomalyLoop] at h
  | cons t rest ih =>
    intro st st2 a h
    simp only [anomalyLoop] at h
    set sev : String := if (0.8 : ℚ) < score then "high" else "medium" with hsev
    split at h
    · split at h
      · split at h
        · injection h with ha hst
          injection ha with ha
          subst ha
          exact ⟨rfl, rfl, rfl, rfl⟩
        · exact ih _ st2 a h
      · exact ih _ st2 a h
    · exact ih _ st2 a h

/-! ## Dispatch helper lemmas -/

/-- Closed form of the Slack sender: the network outcome is irrelevant; the
only failure is a formatting KeyError on a malformed candidate with the
channel configured. -/
theorem send_slack_alert_eq (config : AlertConfig) (a : Alert) (net : Network) :
    send_slack_alert config a net =
      (if config.slack_webhook_url = "" ∨ formatFieldsPresent a = true then
        Except.ok () else Except.error "KeyError") := by
  unfold send_slack_alert
  cases hnet : net.slack_response <;>
    by_cases h1 : config.slack_webhook_url = "" <;>
      by_cases h2 : formatFieldsPresent a = true <;>
        simp [h1, h2, hnet]

/-- The email sender depends on the network oracle only through email_ok. -/
theorem send_email_alert_congr (config : AlertConfig) (a : Alert)
    (net net2 : Network) (h : net2.email_ok = net.email_ok) :
    send_email_alert config a net2 = send_email_alert config a net := by
  unfold send_email_alert
  rw [h]

/-! ## Claims -/

/-- Claim C1 (code evidence): cooldown suppression is not idempotent in the
code. With a fresh manager (cooldown 30 minutes, rate limit 10), the gate
accepts the (anomaly, gcs) candidate, the send succeeds and is recorded,
and 60 seconds later (well within the 1800-second cooldown window) the
gate accepts the same (type, service) key again: send_alert records
last-sent under the bare service name while the gate reads the
type_service key, so the recorded send never arms the cooldown. -/
theorem cooldown_suppression_not_enforced :
    (should_send_alert freshManager anomalyAlert 1000).1 = true ∧
    (send_alert freshManager anomalyAlert 1000 netOk).1 = true ∧
    1060 - 1000 < cfgNoChannels.alert_cooldown_minutes * 60 ∧
    (should_send_alert (send_alert freshManager anomalyAlert 1000 netOk).2
      anomalyAlert 1060).1 = true :=
  ⟨by decide, by decide, by decide, by decide⟩

/-- Claim C2 (code evidence): the hourly rate limit is not enforced. With
max_alerts_per_hour = 1 and one delivery recorded at time 1000, a gate
check for another key at time 2000 (the same wall-clock hour bucket) still
returns true: the delivery incremented the isoformat hour key while the
gate reads the strftime hour key, so recorded deliveries never raise the
counter the gate consults. -/
theorem rate_limit_not_enforced :
    cfgMaxOne.max_alerts_per_hour = 1 ∧
    (send_alert managerMaxOne anomalyAlert 1000 netOk).1 = true ∧
    hourBucket 2000 = hourBucket 1000 ∧
    (should_send_alert (send_alert managerMaxOne anomalyAlert 1000 netOk).2
      anomalyAlertB 2000).1 = true :=
  ⟨by decide, by decide, by decide, by decide⟩

/-- Claim C3 (counterexample): with only the Slack channel configured, a
well-formed anomaly candidate (every formatter-referenced key present) and
a webhook attempt that fails with HTTP 500, send_alert still reports the
alert as delivered and appends it to the history, contradicting the claim
that any configured channel's failed attempt makes the outcome not
delivered. -/
theorem slack_failure_still_delivered :
    cfgSlackOnly.slack_webhook_url ≠ "" ∧
    formatFieldsPresent anomalyAlertFull = true ∧
    slackAttemptSucceeded cfgSlackOnly netSlack500 = false ∧
    (send_alert managerSlack anomalyAlertFull 1000 netSlack500).1 = true ∧
    (send_alert managerSlack anomalyAlertFull 1000 netSlack500).2.alert_history =
      [anomalyAlertFull] :=
  ⟨by decide, by decide, by decide, by decide, by decide⟩

/-- Claim C3 (amended): once the gate accepts, send_alert reports delivered
iff neither channel method raised a propagating exception. The Slack method
can raise only from pre-send formatting (a candidate missing a referenced
key); once formatting succeeds it swallows every network outcome, so a
failed webhook post never blocks delivery. The whole dispatch is
independent of the webhook response, and a non-delivered outcome leaves
the state exactly as the gate left it (no history append, no tracking
update). -/
theorem send_alert_delivered_iff_no_raise (st : AlertManager) (a : Alert)
    (now : Nat) (net : Network)
    (hgate : (should_send_alert st a now).1 = true) :
    ((send_alert st a now net).1 = true ↔
      (send_slack_alert st.config a net = Except.ok () ∧
        send_email_alert st.config a net = Except.ok ())) ∧
    (formatFieldsPresent a = true →
      send_slack_alert st.config a net = Except.ok ()) ∧
    (∀ net2 : Network, net2.email_ok = net.email_ok →
      send_alert st a now net2 = send_alert st a now net) ∧
    ((send_alert st a now net).1 = false →
      (send_alert st a now net).2 = (should_send_alert st a now).2) := by
  obtain ⟨hcfg, -, -, -⟩ := should_send_alert_frame st a now
  refine ⟨?_, ?_, ?_, ?_⟩
  · cases hs : send_slack_alert st.config a net with
    | ok u =>
      cases u
      cases hm : send_email_alert st.config a net with
      | ok v =>
        cases v
        simp [send_alert, hgate, hcfg, hs, hm]
      | error e =>
        have hsrv : ¬ st.config.email_smtp_server = "" := by
          intro h0
          simp [send_email_alert, h0] at hm
        simp [send_alert, hgate, hcfg, hs, hm, hsrv]
    | error e =>
      have hurl : ¬ st.config.slack_webhook_url = "" := by
        intro h0
        simp [send_slack_alert, h0] at hs
      cases hm : send_email_alert st.config a net with
      | ok v =>
        cases v
        simp [send_alert, hgate, hcfg, hs, hm, hurl]
      | error e2 =>
        have hsrv : ¬ st.config.email_smtp_server = "" := by
          intro h0
          simp [send_email_alert, h0] at hm
        simp [send_alert, hgate, hcfg, hs, hm, hurl, hsrv]
  · intro hfmt
    rw [send_slack_alert_eq]
    simp [hfmt]
  · intro net2 h
    simp only [send_alert, send_slack_alert_eq,
      send_email_alert_congr _ a net net2 h]
  · intro hfalse
    cases hs : send_slack_alert st.config a net with
    | ok u =>
      cases u
      cases hm : send_email_alert st.config a net with
      | ok v =>
        cases v
        simp [send_alert, hgate, hcfg, hs, hm] at hfalse
      | error e =>
        have hsrv : ¬ st.config.email_smtp_server = "" := by
          intro h0
          simp [send_email_alert, h0] at hm
        simp [send_alert, hgate, hcfg, hs, hm, hsrv]
    | error e =>
      have hurl : ¬ st.config.slack_webhook_url = "" := by
        intro h0
        simp [send_slack_alert, h0] at hs
      cases hm : send_email_alert st.config a net with
      | ok v =>
        cases v
        simp [send_alert, hgate, hcfg, hs, hm, hurl]
      | error e2 =>
        have hsrv : ¬ st.config.email_smtp_server = "" := by
          intro h0
          simp [send_email_alert, h0] at hm
        simp [send_alert, hgate, hcfg, hs, hm, hurl, hsrv]

/-- The default cost-spike threshold (the first entry of the built-in
threshold list). -/
def spikeThresholdAll : AlertThreshold :=
  { service := "all", threshold_amount := 100, threshold_percentage := 50,
    time_window_hours := 24, alert_type := "cost_spike" }

/-- Claim C4: with a fresh suppression state, a positive hourly budget and
T the unique applicable cost-spike threshold, check_cost_spike yields a
candidate iff the increase reaches T.threshold_amount or the percentage
increase reaches T.threshold_percentage. -/
theorem check_cost_spike_candidate_iff (st : AlertManager) (data : CostData)
    (now : Nat) (T : AlertThreshold) (current P : ℚ)
    (hcur : data.current_cost = some current)
    (hprev : data.previous_cost = some P) (hP : 0 < P)
    (h1 : st.last_alert_time = []) (h2 : st.alert_count_hourly = [])
    (h3 : 1 ≤ st.config.max_alerts_per_hour)
    (hT : st.thresholds.filter
      (costSpikeApplicable (data.service.getD "unknown")) = [T]) :
    ((check_cost_spike st data now).1.isSome = true ↔
      (T.threshold_amount ≤ current - P ∨
        T.threshold_percentage ≤ (current - P) / P * 100)) := by
  have hne : ¬ (P = 0) := ne_of_gt hP
  simp only [check_cost_spike, hcur, hprev, Option.getD_some]
  rw [if_neg hne]
  exact costSpikeLoop_isSome_iff _ current P _ _ now T st.thresholds st h1 h2 h3 hT

/-- Witness for C4: default thresholds, service gcs, costs 100 to 250. -/
theorem check_cost_spike_candidate_iff_witness :
    (costSpikeData.current_cost = some 250 ∧
     costSpikeData.previous_cost = some 100 ∧ (0 : ℚ) < 100 ∧
     freshManager.last_alert_time = [] ∧
     freshManager.alert_count_hourly = [] ∧
     1 ≤ freshManager.config.max_alerts_per_hour ∧
     freshManager.thresholds.filter
       (costSpikeApplicable (costSpikeData.service.getD "unknown")) =
         [spikeThresholdAll]) ∧
    ((check_cost_spike freshManager costSpikeData 1000).1.isSome = true ↔
      (spikeThresholdAll.threshold_amount ≤ (250 : ℚ) - 100 ∨
        spikeThresholdAll.threshold_percentage ≤ ((250 : ℚ) - 100) / 100 * 100)) :=
  ⟨⟨rfl, rfl, by decide, rfl, rfl, by decide, by decide⟩,
    check_cost_spike_candidate_iff freshManager costSpikeData 1000
      spikeThresholdAll 250 100 rfl rfl (by decide) rfl rfl (by decide) (by decide)⟩

/-- Claim C5 (counterexample): the suppression check is not pure; on a
fresh manager it inserts a zero counter for the current hour bucket into
the hourly counter map. -/
theorem gate_mutates_counter_map :
    (should_send_alert freshManager anomalyAlert 1000).2.alert_count_hourly ≠
      freshManager.alert_count_hourly :=
  by decide

/-- Claim C5 (amended): the gate leaves the last-sent map, the history, the
configuration and the thresholds unchanged and never changes an existing
hourly counter entry; its only mutation is possibly inserting a zero
counter for the current hour bucket. -/
theorem gate_state_frame (st : AlertManager) (a : Alert) (now : Nat) :
    (should_send_alert st a now).2.last_alert_time = st.last_alert_time ∧
    (should_send_alert st a now).2.alert_history = st.alert_history ∧
    (should_send_alert st a now).2.config = st.config ∧
    (should_send_alert st a now).2.thresholds = st.thresholds ∧
    (∀ k v, lookupKey st.alert_count_hourly k = some v →
      lookupKey (should_send_alert st a now).2.alert_count_hourly k = some v) ∧
    ((should_send_alert st a now).2.alert_count_hourly = st.alert_count_hourly ∨
      (should_send_alert st a now).2.alert_count_hourly =
        setKey st.alert_count_hourly (strftimeHourKey now) 0) := by
  obtain ⟨h1, h2, h3, h4⟩ := should_send_alert_frame st a now
  exact ⟨h4, h3, h1, h2,
    fun k v h => should_send_alert_counts_mono st a now k v h,
    should_send_alert_counts_cases st a now⟩

/-- Witness for C5 (amended) on a manager with an existing counter entry. -/
theorem gate_state_frame_witness :
    lookupKey managerWithCount.alert_count_hourly "k1" = some 5 ∧
    lookupKey (should_send_alert managerWithCount anomalyAlert 1000).2.alert_count_hourly
      "k1" = some 5 :=
  ⟨by decide,
    (gate_state_frame managerWithCount anomalyAlert 1000).2.2.2.2.1 "k1" 5 (by decide)⟩

/-- Claim C6 (counterexample): a record without budget_limit is not treated
as budget 0. With current cost 5 the code yields no candidate when the
field is absent, but yields one when the field is present with value 0. -/
theorem missing_budget_not_treated_as_zero :
    costNoBudget.budget_limit = none ∧
    costZeroBudget = { costNoBudget with budget_limit := some 0 } ∧
    (check_budget_exceeded freshManager costNoBudget 1000).1 = none ∧
    (check_budget_exceeded freshManager costZeroBudget 1000).1.isSome = true :=
  ⟨rfl, rfl, by decide, by decide⟩

/-- Claim C6 (amended): missing current_cost, previous_cost, anomaly_score
and cost_impact are treated as 0 by the evaluators, while a missing
budget_limit defaults to float infinity, so check_budget_exceeded yields
no candidate at all; evaluation is total. -/
theorem evaluators_default_missing_fields (st : AlertManager) (d : CostData)
    (ad : AnomalyData) (now : Nat) :
    check_cost_spike st { d with current_cost := none } now =
      check_cost_spike st { d with current_cost := some 0 } now ∧
    check_cost_spike st { d with previous_cost := none } now =
      check_cost_spike st { d with previous_cost := some 0 } now ∧
    check_budget_exceeded st { d with current_cost := none } now =
      check_budget_exceeded st { d with current_cost := some 0 } now ∧
    check_anomaly st { ad with anomaly_score := none } now =
      check_anomaly st { ad with anomaly_score := some 0 } now ∧
    check_anomaly st { ad with cost_impact := none } now =
      check_anomaly st { ad with cost_impact := some 0 } now ∧
    check_budget_exceeded st { d with budget_limit := none } now = (none, st) :=
  ⟨rfl, rfl, rfl, rfl, rfl, rfl⟩

/-- Claim C7: with zero channels configured, a gate-accepted candidate is
reported delivered and appended to the history although no channel was
attempted. -/
theorem zero_channels_trivially_delivered (st : AlertManager) (a : Alert)
    (now : Nat) (net : Network)
    (hs : st.config.slack_webhook_url = "")
    (he : st.config.email_smtp_server = "")
    (hgate : (should_send_alert st a now).1 = true) :
    (send_alert st a now net).1 = true ∧
    (send_alert st a now net).2.alert_history = st.alert_history ++ [a] := by
  obtain ⟨hcfg, -, hh, -⟩ := should_send_alert_frame st a now
  constructor <;> simp [send_alert, hgate, hcfg, hs, he, hh]

/-- Witness for C7 on the fresh channel-less manager. -/
theorem zero_channels_trivially_delivered_witness :
    (freshManager.config.slack_webhook_url = "" ∧
     freshManager.config.email_smtp_server = "" ∧
     (should_send_alert freshManager anomalyAlertB 1000).1 = true) ∧
    ((send_alert freshManager anomalyAlertB 1000 netOk).1 = true ∧
     (send_alert freshManager anomalyAlertB 1000 netOk).2.alert_history =
       freshManager.alert_history ++ [anomalyAlertB]) :=
  ⟨⟨rfl, rfl, by decide⟩,
    zero_channels_trivially_delivered freshManager anomalyAlertB 1000 netOk
      rfl rfl (by decide)⟩

/-- The candidate check_budget_exceeded builds for costOverBudget on the
default thresholds. -/
def budgetAlert600 : Alert :=
  { type := "budget_exceeded", service := "gcs",
    current_cost := some 600, budget_limit := some 500,
    exceeded_amount := some ((600 : ℚ) - 500),
    timestamp := 1000, severity := "critical" }

/-- An anomaly input with every field absent. -/
def emptyAnomalyData : AnomalyData := { }

/-- Claim C8: severity determinism. Every cost-spike candidate carries
severity high iff its increase percentage exceeds 100; every
budget-exceeded candidate is critical; every anomaly candidate carries
severity high iff its anomaly score exceeds 0.8. -/
theorem severity_deterministic (st1 st2 st3 : AlertManager) (d1 d2 : CostData)
    (ad : AnomalyData) (now : Nat) (a : Alert) :
    ((check_cost_spike st1 d1 now).1 = some a →
      ∃ p, a.increase_percentage = some p ∧
        a.severity = (if 100 < p then "high" else "medium")) ∧
    ((check_budget_exceeded st2 d2 now).1 = some a → a.severity = "critical") ∧
    ((check_anomaly st3 ad now).1 = some a →
      ∃ s, a.anomaly_score = some s ∧
        a.severity = (if (0.8 : ℚ) < s then "high" else "medium")) := by
  refine ⟨?_, ?_, ?_⟩
  · intro h
    have hp : check_cost_spike st1 d1 now =
        (some a, (check_cost_spike st1 d1 now).2) := by
      rw [← h]
    simp only [check_cost_spike] at hp
    split at hp
    · simp at hp
    · obtain ⟨-, -, hpc, hsev⟩ :=
        costSpikeLoop_shape _ _ _ _ _ _ st1.thresholds st1 _ a hp
      exact ⟨_, hpc, hsev⟩
  · intro h
    have hp : check_budget_exceeded st2 d2 now =
        (some a, (check_budget_exceeded st2 d2 now).2) := by
      rw [← h]
    simp only [check_budget_exceeded] at hp
    split at hp
    · simp at hp
    · split at hp
      · obtain ⟨-, -, hsev⟩ :=
          budgetLoop_shape _ _ _ _ st2.thresholds st2 _ a hp
        exact hsev
      · simp at hp
  · intro h
    have hp : check_anomaly st3 ad now =
        (some a, (check_anomaly st3 ad now).2) := by
      rw [← h]
    simp only [check_anomaly] at hp
    obtain ⟨-, -, hsc, hsev⟩ :=
      anomalyLoop_shape _ _ _ _ st3.thresholds st3 _ a hp
    exact ⟨_, hsc, hsev⟩

/-- Witness for C8 on the budget evaluator: 600 over a 500 budget yields a
critical candidate. -/
theorem severity_deterministic_witness :
    (check_budget_exceeded freshManager costOverBudget 1000).1 =
      some budgetAlert600 ∧
    budgetAlert600.severity = "critical" :=
  ⟨rfl,
    (severity_deterministic freshManager freshManager freshManager
      costOverBudget costOverBudget emptyAnomalyData 1000 budgetAlert600).2.1 rfl⟩

/-- Claim C9: appending a record whose timestamp lies inside the queried
window and then querying the history returns the record unchanged, at the
end of the result, on top of the previous query result. -/
theorem history_roundtrip (st : AlertManager) (a : Alert) (now hours : Nat)
    (h : (now : Int) - (hours : Int) * 3600 < (a.timestamp : Int)) :
    get_alert_history { st with alert_history := st.alert_history ++ [a] }
      hours now = get_alert_history st hours now ++ [a] := by
  simp only [get_alert_history]
  rw [List.filter_append]
  simp [h]

/-- Witness for C9: a record delivered at time 1000 is returned by the
24-hour query at time 1000. -/
theorem history_roundtrip_witness :
    ((1000 : Int) - ((24 : Nat) : Int) * 3600 < ((1000 : Nat) : Int)) ∧
    get_alert_history
        { freshManager with
          alert_history := freshManager.alert_history ++ [anomalyAlert] }
        24 1000 =
      get_alert_history freshManager 24 1000 ++ [anomalyAlert] :=
  ⟨by decide,
    history_roundtrip freshManager anomalyAlert 1000 24 (by decide)⟩

/-- Claim C10: when the gate rejects a candidate, send_alert returns false
without consulting the network oracle, and the history, the last-sent map
and every existing hourly counter entry are unchanged. -/
theorem suppressed_send_frame (st : AlertManager) (a : Alert) (now : Nat)
    (net : Network) (hgate : (should_send_alert st a now).1 = false) :
    (send_alert st a now net).1 = false ∧
    (send_alert st a now net).2.alert_history = st.alert_history ∧
    (send_alert st a now net).2.last_alert_time = st.last_alert_time ∧
    (∀ k v, lookupKey st.alert_count_hourly k = some v →
      lookupKey (send_alert st a now net).2.alert_count_hourly k = some v) ∧
    (∀ net2 : Network, send_alert st a now net2 = send_alert st a now net) := by
  obtain ⟨-, -, hh, hl⟩ := should_send_alert_frame st a now
  have hres : send_alert st a now net = (false, (should_send_alert st a now).2) := by
    simp [send_alert, hgate]
  have hres2 : ∀ net2 : Network,
      send_alert st a now net2 = (false, (should_send_alert st a now).2) := by
    intro net2
    simp [send_alert, hgate]
  refine ⟨by rw [hres], by rw [hres]; exact hh, by rw [hres]; exact hl, ?_, ?_⟩
  · intro k v h
    rw [hres]
    exact should_send_alert_counts_mono st a now k v h
  · intro net2
    rw [hres, hres2 net2]

/-- Witness for C10 on the zero-rate-limit manager, whose gate rejects
every candidate. -/
theorem suppressed_send_frame_witness :
    ((should_send_alert managerMaxZero anomalyAlert 1000).1 = false) ∧
    ((send_alert managerMaxZero anomalyAlert 1000 netOk).1 = false ∧
     (send_alert managerMaxZero anomalyAlert 1000 netOk).2.alert_history =
       managerMaxZero.alert_history) :=
  ⟨by decide,
    (suppressed_send_frame managerMaxZero anomalyAlert 1000 netOk (by decide)).1,
    (suppressed_send_frame managerMaxZero anomalyAlert 1000 netOk (by decide)).2.1⟩

/-- Witness for the amended C3 on the Slack-only manager, a well-formed
candidate and a failing webhook. -/
theorem send_alert_delivered_iff_no_raise_witness :
    ((should_send_alert managerSlack anomalyAlertFull 1000).1 = true) ∧
    ((send_alert managerSlack anomalyAlertFull 1000 netSlack500).1 = true ↔
      (send_slack_alert managerSlack.config anomalyAlertFull netSlack500 =
          Except.ok () ∧
        send_email_alert managerSlack.config anomalyAlertFull netSlack500 =
          Except.ok ())) :=
  ⟨by decide,
    (send_alert_delivered_iff_no_raise managerSlack anomalyAlertFull 1000
      netSlack500 (by decide)).1⟩
